import Mathlib

/-!
Verification of the filmic RGB tone-mapping and highlight-reconstruction
module (src/iop/filmicrgb.c) against its natural-language specification.

The floating-point arithmetic of the C source is modelled over the real
numbers: every `float` becomes a real number, `log2f` becomes `Real.logb 2`,
`exp2f x` becomes `(2 : Real) ^ x` (real power), `powf` becomes `Real.rpow`,
`sqrtf` becomes `Real.sqrt`, and `fminf` / `fmaxf` / `fabsf` become
`min` / `max` / `abs`.  Pixel buffers (4 floats per pixel, row-major,
3 colour channels plus one passthrough alpha channel that no computation
in this module reads) are modelled as total functions from row and column
indices to the colour triple `Fin 3 -> Real`; the per-pixel mask is a
function from row and column to a real weight.  External collaborators of
the module (the working colour profile luminance, the seeded noise
generator) are opaque parameters of the embedding, as the specification
treats them as external services.
-/

noncomputable section

namespace FilmicRGB

/-- C source `#define NORM_MIN 1.52587890625e-05f` (2 to the power -16). -/
def NORM_MIN : ℝ := 1.52587890625e-05

/-- C source `clamp_simd`: `fminf(fmaxf(x, 0.0f), 1.0f)`. -/
def clamp_simd (x : ℝ) : ℝ := min (max x 0) 1

/-- C source `sqf`: `x * x`. -/
def sqf (x : ℝ) : ℝ := x * x

/-- glib macro `CLAMP(x, low, high)`:
`(((x) > (high)) ? (high) : (((x) < (low)) ? (low) : (x)))`. -/
def CLAMP (x low high : ℝ) : ℝ := if x > high then high else if x < low then low else x

/-- C source `fmaxabsf`: returns the argument of larger absolute value
(`(abs_a > abs_b) ? a : b`). -/
def fmaxabsf (a b : ℝ) : ℝ := if |a| > |b| then a else b

/-- C source `fminabsf`: returns the argument of smaller absolute value
(`(abs_a < abs_b) ? a : b`). -/
def fminabsf (a b : ℝ) : ℝ := if |a| < |b| then a else b

/-- C source `log_tonemapping_v1` (filmicrgb.c lines 505-509):
`temp = (log2f(x / grey) - black) / dynamic_range`, result
`fmaxf(fminf(temp, 1.0f), 1.52587890625e-05f)`. -/
def log_tonemapping_v1 (x grey black dynamic_range : ℝ) : ℝ :=
  max (min ((Real.logb 2 (x / grey) - black) / dynamic_range) 1) 1.52587890625e-05

/-- C source `log_tonemapping_v2` (filmicrgb.c lines 515-518):
`clamp_simd((log2f(x / grey) - black) / dynamic_range)`. -/
def log_tonemapping_v2 (x grey black dynamic_range : ℝ) : ℝ :=
  clamp_simd ((Real.logb 2 (x / grey) - black) / dynamic_range)

lemma clamp_simd_mem (x : ℝ) : clamp_simd x ∈ Set.Icc (0 : ℝ) 1 := by
  constructor
  · exact le_min (le_max_right x 0) (by norm_num)
  · exact min_le_right _ _

lemma clamp_simd_mono {x y : ℝ} (h : x ≤ y) : clamp_simd x ≤ clamp_simd y := by
  unfold clamp_simd
  exact min_le_min (max_le_max h le_rfl) le_rfl

/-- C1.  For positive input and positive grey / dynamic-range parameters the
two log tone-mapping functions are monotone non-decreasing in the input, and
their results always lie in the clamp interval of the variant:
`[1.52587890625e-05, 1]` for v1 and `[0, 1]` for v2. -/
theorem C1_log_tonemapping_mono_and_range :
    (∀ grey black dynamic_range x y : ℝ, 0 < grey → 0 < dynamic_range →
      0 < x → x ≤ y →
      log_tonemapping_v1 x grey black dynamic_range ≤
        log_tonemapping_v1 y grey black dynamic_range) ∧
    (∀ grey black dynamic_range x y : ℝ, 0 < grey → 0 < dynamic_range →
      0 < x → x ≤ y →
      log_tonemapping_v2 x grey black dynamic_range ≤
        log_tonemapping_v2 y grey black dynamic_range) ∧
    (∀ grey black dynamic_range x : ℝ, 0 < grey → 0 < dynamic_range → 0 < x →
      log_tonemapping_v1 x grey black dynamic_range ∈
        Set.Icc (1.52587890625e-05 : ℝ) 1) ∧
    (∀ grey black dynamic_range x : ℝ, 0 < grey → 0 < dynamic_range → 0 < x →
      log_tonemapping_v2 x grey black dynamic_range ∈ Set.Icc (0 : ℝ) 1) := by
  have hcore : ∀ grey black dynamic_range x y : ℝ, 0 < grey → 0 < dynamic_range →
      0 < x → x ≤ y →
      (Real.logb 2 (x / grey) - black) / dynamic_range ≤
        (Real.logb 2 (y / grey) - black) / dynamic_range := by
    intro grey black dr x y hg hdr hx hxy
    have hdiv : x / grey ≤ y / grey := by gcongr
    have hxg : 0 < x / grey := div_pos hx hg
    have hlog : Real.logb 2 (x / grey) ≤ Real.logb 2 (y / grey) :=
      Real.logb_le_logb_of_le (by norm_num) hxg hdiv
    gcongr
  refine ⟨?_, ?_, ?_, ?_⟩
  · intro grey black dr x y hg hdr hx hxy
    unfold log_tonemapping_v1
    exact max_le_max (min_le_min (hcore grey black dr x y hg hdr hx hxy) le_rfl) le_rfl
  · intro grey black dr x y hg hdr hx hxy
    unfold log_tonemapping_v2
    exact clamp_simd_mono (hcore grey black dr x y hg hdr hx hxy)
  · intro grey black dr x hg hdr hx
    unfold log_tonemapping_v1
    constructor
    · exact le_max_right _ _
    · exact max_le (min_le_right _ _) (by norm_num)
  · intro grey black dr x hg hdr hx
    exact clamp_simd_mem _

/-- Witness for C1 at concrete inputs: grey = 1, dynamic range = 1,
inputs 1 and 2. -/
theorem C1_witness :
    log_tonemapping_v1 1 1 0 1 ≤ log_tonemapping_v1 2 1 0 1 ∧
    log_tonemapping_v2 1 1 0 1 ≤ log_tonemapping_v2 2 1 0 1 ∧
    log_tonemapping_v1 1 1 0 1 ∈ Set.Icc (1.52587890625e-05 : ℝ) 1 ∧
    log_tonemapping_v2 1 1 0 1 ∈ Set.Icc (0 : ℝ) 1 := by
  refine ⟨?_, ?_, ?_, ?_⟩
  · exact C1_log_tonemapping_mono_and_range.1 1 0 1 1 2 (by norm_num) (by norm_num)
      (by norm_num) (by norm_num)
  · exact C1_log_tonemapping_mono_and_range.2.1 1 0 1 1 2 (by norm_num) (by norm_num)
      (by norm_num) (by norm_num)
  · exact C1_log_tonemapping_mono_and_range.2.2.1 1 0 1 1 (by norm_num) (by norm_num)
      (by norm_num)
  · exact C1_log_tonemapping_mono_and_range.2.2.2 1 0 1 1 (by norm_num) (by norm_num)
      (by norm_num)

/-- A pixel: the three colour channels of a 4-float buffer pixel (the fourth,
alpha, channel is read by no computation in this module and is dropped from
the model). -/
def RGB : Type := Fin 3 → ℝ

/-- A pixel buffer, indexed by row and column (row-major `k = (i*width+j)*ch`
in the C source). -/
def Img : Type := ℕ → ℕ → RGB

/-- A one-float-per-pixel buffer (mask, norms, texture). -/
def Mask : Type := ℕ → ℕ → ℝ

/-- C source `dt_iop_filmicrgb_methods_type_t`. -/
inductive NormMethod where
  | none
  | max_rgb
  | luminance
  | power_norm
  | euclidean_norm
deriving DecidableEq

/-- C source `dt_iop_filmicrgb_colorscience_type_t`. -/
inductive ColorScience where
  | v1
  | v2
deriving DecidableEq

/-- C source `dt_iop_filmicrgb_curve_type_t` (`DT_FILMIC_CURVE_POLY_4` is "hard",
`DT_FILMIC_CURVE_POLY_3` is "soft"). -/
inductive CurveType where
  | poly4
  | poly3
deriving DecidableEq

/-- C source `dt_iop_filmicrgb_reconstruction_type_t`. -/
inductive ReconstructVariant where
  | rgb
  | ratios
deriving DecidableEq

/-- C source `pixel_rgb_norm_power` (filmicrgb.c lines 443-461):
`(R^3 + G^3 + B^3) / max(R^2 + G^2 + B^2, 1e-12)` on absolute values. -/
def pixel_rgb_norm_power (pix : RGB) : ℝ :=
  (|pix 0| ^ 3 + |pix 1| ^ 3 + |pix 2| ^ 3) /
    max (|pix 0| ^ 2 + |pix 1| ^ 2 + |pix 2| ^ 2) 1e-12

/-- C source `get_pixel_norm` (filmicrgb.c lines 467-499).  The luminance variant and
the default branch call the external working-profile luminance (or the
camera-RGB fallback); both are modelled by the opaque parameter `lum`. -/
def get_pixel_norm (lum : RGB → ℝ) (variant : NormMethod) (pix : RGB) : ℝ :=
  match variant with
  | .max_rgb => max (max (pix 0) (pix 1)) (pix 2)
  | .luminance => lum pix
  | .power_norm => pixel_rgb_norm_power pix
  | .euclidean_norm => Real.sqrt (sqf (pix 0) + sqf (pix 1) + sqf (pix 2))
  | .none => lum pix

/-- C source `dt_iop_filmic_rgb_spline_t`: per-segment coefficient vectors
(`M1..M5`, segment index 0 = toe, 1 = shoulder, 2 = latitude/linear),
latitude bounds, and the five control nodes. -/
structure Spline where
  M1 : Fin 3 → ℝ
  M2 : Fin 3 → ℝ
  M3 : Fin 3 → ℝ
  M4 : Fin 3 → ℝ
  M5 : Fin 3 → ℝ
  latitude_min : ℝ
  latitude_max : ℝ
  x : Fin 5 → ℝ
  y : Fin 5 → ℝ

/-- One polynomial segment of `filmic_spline`, in the Horner form of the C
source: `M1[i] + x*(M2[i] + x*(M3[i] + x*(M4[i] + x*M5[i])))`. -/
def seg_eval (s : Spline) (i : Fin 3) (x : ℝ) : ℝ :=
  s.M1 i + x * (s.M2 i + x * (s.M3 i + x * (s.M4 i + x * s.M5 i)))

/-- First derivative of a spline segment polynomial. -/
def seg_deriv (s : Spline) (i : Fin 3) (x : ℝ) : ℝ :=
  s.M2 i + 2 * s.M3 i * x + 3 * s.M4 i * x ^ 2 + 4 * s.M5 i * x ^ 3

/-- C source `filmic_spline` (filmicrgb.c lines 524-531): toe polynomial below
`latitude_min`, shoulder polynomial above `latitude_max`, latitude
polynomial in between. -/
def filmic_spline (s : Spline) (x : ℝ) : ℝ :=
  if x < s.latitude_min then seg_eval s 0 x
  else if x > s.latitude_max then seg_eval s 1 x
  else seg_eval s 2 x

/-- C source `filmic_desaturate_v1` (filmicrgb.c lines 537-546). -/
def filmic_desaturate_v1 (x sigma_toe sigma_shoulder saturation : ℝ) : ℝ :=
  1 - clamp_simd ((Real.exp (-0.5 * (x * x) / sigma_toe) +
    Real.exp (-0.5 * ((1 - x) * (1 - x)) / sigma_shoulder)) / saturation)

/-- C source `filmic_desaturate_v2` (filmicrgb.c lines 552-561). -/
def filmic_desaturate_v2 (x sigma_toe sigma_shoulder saturation : ℝ) : ℝ :=
  saturation -
    (Real.exp (-(x * x) / sigma_toe * (0.5 / Real.sqrt saturation)) +
      Real.exp (-((1 - x) * (1 - x)) / sigma_shoulder * (0.5 / Real.sqrt saturation))) *
      saturation

/-- C source `linear_saturation` (filmicrgb.c lines 567-570). -/
def linear_saturation (x luminance saturation : ℝ) : ℝ :=
  luminance + saturation * (x - luminance)

/-- The committed pipeline data `dt_iop_filmicrgb_data_t` (fields consumed by
the numerical pipeline).  `noise_distribution` is kept as an opaque tag since
the noise generator itself is an external collaborator. -/
structure FilmicData where
  white_source : ℝ
  grey_source : ℝ
  black_source : ℝ
  reconstruct_threshold : ℝ
  reconstruct_feather : ℝ
  reconstruct_bloom_vs_details : ℝ
  reconstruct_grey_vs_color : ℝ
  reconstruct_structure_vs_texture : ℝ
  dynamic_range : ℝ
  saturation : ℝ
  output_power : ℝ
  contrast : ℝ
  sigma_toe : ℝ
  sigma_shoulder : ℝ
  noise_level : ℝ
  preserve_color : NormMethod
  version : ColorScience
  high_quality_reconstruction : ℕ
  spline : Spline
  noise_distribution : ℕ

/-- The log-tonemapped channels `temp[c]` of `filmic_split_v1`
(filmicrgb.c lines 1155-1156). -/
def split_temp_v1 (data : FilmicData) (pix : RGB) : RGB := fun c =>
  log_tonemapping_v1 (max (pix c) NORM_MIN) data.grey_source data.black_source
    data.dynamic_range

/-- The log-tonemapped channels `temp[c]` of `filmic_split_v2`
(filmicrgb.c lines 1198-1199). -/
def split_temp_v2 (data : FilmicData) (pix : RGB) : RGB := fun c =>
  log_tonemapping_v2 (max (pix c) NORM_MIN) data.grey_source data.black_source
    data.dynamic_range

/-- C source `filmic_split_v1` (filmicrgb.c lines 1138-1174): per pixel, log
tone-mapping of each channel, desaturation toward the luminance of the
tone-mapped pixel, spline evaluation, clamp, and display power. -/
def filmic_split_v1 (data : FilmicData) (lum : RGB → ℝ) (inp : Img) : Img :=
  fun i j =>
  let temp := split_temp_v1 data (inp i j)
  let l := lum temp
  let desaturation := filmic_desaturate_v1 l data.sigma_toe data.sigma_shoulder data.saturation
  fun c =>
    (clamp_simd (filmic_spline data.spline (linear_saturation (temp c) l desaturation))) ^
      data.output_power

/-- C source `filmic_split_v2` (filmicrgb.c lines 1181-1217). -/
def filmic_split_v2 (data : FilmicData) (lum : RGB → ℝ) (inp : Img) : Img :=
  fun i j =>
  let temp := split_temp_v2 data (inp i j)
  let l := lum temp
  let desaturation := filmic_desaturate_v2 l data.sigma_toe data.sigma_shoulder data.saturation
  fun c =>
    (clamp_simd (filmic_spline data.spline (linear_saturation (temp c) l desaturation))) ^
      data.output_power

/-- C10.  Both split-mode tone mappers produce every output colour channel as
`powf(clamp_simd(spline value), output_power)`, and for `output_power > 0`
every output colour channel lies in `[0, 1]` for every input pixel. -/
theorem C10_split_output_form_and_range :
    ∀ (data : FilmicData) (lum : RGB → ℝ) (inp : Img) (i j : ℕ) (c : Fin 3),
      0 < data.output_power →
      (filmic_split_v1 data lum inp i j c =
          (clamp_simd (filmic_spline data.spline
            (linear_saturation (split_temp_v1 data (inp i j) c)
              (lum (split_temp_v1 data (inp i j)))
              (filmic_desaturate_v1 (lum (split_temp_v1 data (inp i j)))
                data.sigma_toe data.sigma_shoulder data.saturation)))) ^
            data.output_power ∧
        filmic_split_v1 data lum inp i j c ∈ Set.Icc (0 : ℝ) 1) ∧
      (filmic_split_v2 data lum inp i j c =
          (clamp_simd (filmic_spline data.spline
            (linear_saturation (split_temp_v2 data (inp i j) c)
              (lum (split_temp_v2 data (inp i j)))
              (filmic_desaturate_v2 (lum (split_temp_v2 data (inp i j)))
                data.sigma_toe data.sigma_shoulder data.saturation)))) ^
            data.output_power ∧
        filmic_split_v2 data lum inp i j c ∈ Set.Icc (0 : ℝ) 1) := by
  intro data lum inp i j c hpow
  have hb : ∀ t : ℝ, (clamp_simd t) ^ data.output_power ∈ Set.Icc (0 : ℝ) 1 := by
    intro t
    obtain ⟨h0, h1⟩ := clamp_simd_mem t
    exact ⟨Real.rpow_nonneg h0 _, Real.rpow_le_one h0 h1 hpow.le⟩
  exact ⟨⟨rfl, hb _⟩, ⟨rfl, hb _⟩⟩

/-- Witness for C10 at a concrete configuration (all-zero data, zero pixel,
output power 1). -/
theorem C10_witness :
    let s0 : Spline :=
      ⟨fun _ => 0, fun _ => 0, fun _ => 0, fun _ => 0, fun _ => 0, 0, 0,
        fun _ => 0, fun _ => 0⟩
    let d0 : FilmicData :=
      ⟨0, 0, 0, 0, 0, 0, 0, 0, 0, 0, 1, 0, 0, 0, 0, .none, .v1, 0, s0, 0⟩
    filmic_split_v1 d0 (fun _ => 0) (fun _ _ _ => 0) 0 0 0 ∈ Set.Icc (0 : ℝ) 1 ∧
    filmic_split_v2 d0 (fun _ => 0) (fun _ _ _ => 0) 0 0 0 ∈ Set.Icc (0 : ℝ) 1 := by
  intro s0 d0
  exact ⟨(C10_split_output_form_and_range d0 (fun _ => 0) (fun _ _ _ => 0) 0 0 0
      (by norm_num)).1.2,
    (C10_split_output_form_and_range d0 (fun _ => 0) (fun _ _ _ => 0) 0 0 0
      (by norm_num)).2.2⟩

/-- The per-pixel norms buffer written by `compute_ratios`
(filmicrgb.c lines 1369-1385): `fmaxf(get_pixel_norm(...), NORM_MIN)`. -/
def compute_ratios_norms (lum : RGB → ℝ) (variant : NormMethod) (inp : Img) : Mask :=
  fun i j => max (get_pixel_norm lum variant (inp i j)) NORM_MIN

/-- The ratios buffer written by `compute_ratios`: `ratios[k+c] = in[k+c] / norm`. -/
def compute_ratios (lum : RGB → ℝ) (variant : NormMethod) (inp : Img) : Img :=
  fun i j c => inp i j c / compute_ratios_norms lum variant inp i j

/-- C source `restore_ratios` (filmicrgb.c lines 1392-1404): `ratios[k+c] *= norms[k/ch]`. -/
def restore_ratios (ratios : Img) (norms : Mask) : Img :=
  fun i j c => ratios i j c * norms i j

lemma NORM_MIN_pos : (0 : ℝ) < NORM_MIN := by norm_num [NORM_MIN]

/-- C5.  On a buffer whose selected per-pixel norm is everywhere at least
`NORM_MIN`, `compute_ratios` followed by `restore_ratios` reproduces the
original buffer exactly: `ratios[k+c] * norms[k/ch] = in[k+c]` for every
pixel and colour channel. -/
theorem C5_compute_restore_ratios_roundtrip :
    ∀ (lum : RGB → ℝ) (variant : NormMethod) (inp : Img),
      (∀ i j, NORM_MIN ≤ get_pixel_norm lum variant (inp i j)) →
      ∀ i j (c : Fin 3),
        restore_ratios (compute_ratios lum variant inp)
            (compute_ratios_norms lum variant inp) i j c = inp i j c := by
  intro lum variant inp _h i j c
  have hpos : (0 : ℝ) < compute_ratios_norms lum variant inp i j :=
    lt_of_lt_of_le NORM_MIN_pos (le_max_right _ _)
  unfold restore_ratios compute_ratios
  exact div_mul_cancel₀ _ hpos.ne'

/-- Witness for C5: a constant all-ones buffer under the max-RGB norm. -/
theorem C5_witness :
    (∀ i j, NORM_MIN ≤ get_pixel_norm (fun _ => 0) .max_rgb ((fun _ _ _ => 1 : Img) i j)) ∧
    restore_ratios (compute_ratios (fun _ => 0) .max_rgb (fun _ _ _ => 1))
      (compute_ratios_norms (fun _ => 0) .max_rgb (fun _ _ _ => 1)) 0 0 0 = 1 := by
  have h : ∀ i j : ℕ,
      NORM_MIN ≤ get_pixel_norm (fun _ => 0) .max_rgb ((fun _ _ _ => 1 : Img) i j) := by
    intro i j
    simp only [get_pixel_norm]
    norm_num [NORM_MIN]
  exact ⟨h, C5_compute_restore_ratios_roundtrip (fun _ => 0) .max_rgb (fun _ _ _ => 1) h 0 0 0⟩

/-- The channel-magnitude norm of `mask_clipped_pixels`
(filmicrgb.c line 619): `sqrtf(sqf(in[k]) + sqf(in[k+1]) + sqf(in[k+2]))`. -/
def pix_max (pix : RGB) : ℝ := Real.sqrt (sqf (pix 0) + sqf (pix 1) + sqf (pix 2))

/-- The sigmoid argument of `mask_clipped_pixels` (filmicrgb.c line 620):
`-pix_max * normalize + feathering`. -/
def mask_argument (normalize feathering : ℝ) (pix : RGB) : ℝ :=
  -pix_max pix * normalize + feathering

/-- The mask written by `mask_clipped_pixels` (filmicrgb.c lines 619-622):
`weight = 1 / (1 + exp2f(argument))`. -/
def clip_mask (normalize feathering : ℝ) (inp : Img) : Mask :=
  fun i j => 1 / (1 + (2 : ℝ) ^ mask_argument normalize feathering (inp i j))

/-- The clipped-pixel counter of `mask_clipped_pixels`
(filmicrgb.c line 628): the number of pixels with `argument < 4`. -/
def clipped_count (normalize feathering : ℝ) (inp : Img) (w h : ℕ) : ℕ :=
  letI : DecidablePred fun p : ℕ × ℕ =>
      mask_argument normalize feathering (inp p.1 p.2) < 4 :=
    fun _ => Classical.propDecidable _
  ((Finset.range h ×ˢ Finset.range w).filter
    (fun p : ℕ × ℕ => mask_argument normalize feathering (inp p.1 p.2) < 4)).card

/-- The boolean returned by `mask_clipped_pixels` (filmicrgb.c line 632):
`clipped > 9`. -/
def mask_clipped_flag (normalize feathering : ℝ) (inp : Img) (w h : ℕ) : Bool :=
  decide (9 < clipped_count normalize feathering inp w h)

/-- C source `display_mask` (filmicrgb.c lines 1352-1362): broadcast the mask weight
into every channel of the output. -/
def display_mask (mask : Mask) : Img := fun i j _ => mask i j

/-- C source `inpaint_noise` (filmicrgb.c lines 639-672):
`inpainted = input*(1-weight) + weight*noise`.  The noise values produced by
the external seeded generator `dt_noise_generator` are the opaque parameter
`noise` (per pixel and channel). -/
def inpaint_noise (inp : Img) (mask : Mask) (noise : ℕ → ℕ → Fin 3 → ℝ) : Img :=
  fun i j c => inp i j c * (1 - mask i j) + mask i j * noise i j c

/-- C source `filmic_chroma_v1` (filmicrgb.c lines 1224-1276). -/
def filmic_chroma_v1 (data : FilmicData) (lum : RGB → ℝ) (variant : NormMethod)
    (inp : Img) : Img := fun i j =>
  let pix := inp i j
  let norm0 := max (get_pixel_norm lum variant pix) NORM_MIN
  let ratios0 : RGB := fun c => pix c / norm0
  let min_ratios := min (min (ratios0 0) (ratios0 1)) (ratios0 2)
  let ratios1 : RGB := if min_ratios < 0 then fun c => ratios0 c - min_ratios else ratios0
  let norm1 := log_tonemapping_v1 norm0 data.grey_source data.black_source data.dynamic_range
  let desaturation := filmic_desaturate_v1 norm1 data.sigma_toe data.sigma_shoulder
    data.saturation
  let ratios2 : RGB := fun c => ratios1 c * norm1
  let l := lum ratios2
  let ratios3 : RGB := fun c => linear_saturation (ratios2 c) l desaturation / norm1
  let norm2 := (clamp_simd (filmic_spline data.spline norm1)) ^ data.output_power
  fun c => ratios3 c * norm2

/-- C source `filmic_chroma_v2` (filmicrgb.c lines 1283-1345), including the gamut
penalty step. -/
def filmic_chroma_v2 (data : FilmicData) (lum : RGB → ℝ) (variant : NormMethod)
    (inp : Img) : Img := fun i j =>
  let pix := inp i j
  let norm0 := max (get_pixel_norm lum variant pix) NORM_MIN
  let ratios0 : RGB := fun c => pix c / norm0
  let min_ratios := min (min (ratios0 0) (ratios0 1)) (ratios0 2)
  let ratios1 : RGB := if min_ratios < 0 then fun c => ratios0 c - min_ratios else ratios0
  let norm1 := log_tonemapping_v2 norm0 data.grey_source data.black_source data.dynamic_range
  let desaturation := filmic_desaturate_v2 norm1 data.sigma_toe data.sigma_shoulder
    data.saturation
  let norm2 := (clamp_simd (filmic_spline data.spline norm1)) ^ data.output_power
  let ratios2 : RGB := fun c => max (ratios1 c + (1 - ratios1 c) * (1 - desaturation)) 0
  let out0 : RGB := fun c => ratios2 c * norm2
  let max_pix := max (max (out0 0) (out0 1)) (out0 2)
  if max_pix > 1 then (fun c => clamp_simd (max (ratios2 c + (1 - max_pix)) 0 * norm2))
  else out0

/-- The tone-mapping dispatch of `process` (filmicrgb.c lines 1496-1511):
split mode when chrominance preservation is off, chroma mode otherwise, in
the selected colour-science version. -/
def tone_map (data : FilmicData) (lum : RGB → ℝ) (inp : Img) : Img :=
  match data.preserve_color, data.version with
  | .none, .v1 => filmic_split_v1 data lum inp
  | .none, .v2 => filmic_split_v2 data lum inp
  | v, .v1 => filmic_chroma_v1 data lum v inp
  | v, .v2 => filmic_chroma_v2 data lum v inp

/-- The 5-tap binomial B-spline filter `{1,4,6,4,1}/16` (filmicrgb.c). -/
def bspline_filter (jj : ℕ) : ℝ :=
  match jj with
  | 0 => 1 / 16
  | 1 => 4 / 16
  | 2 => 6 / 16
  | 3 => 4 / 16
  | _ => 1 / 16

/-- Nearest-edge index clamping used by the blur boundary handling. -/
def clamp_index (idx lo hi : ℤ) : ℤ := if idx < lo then lo else if idx > hi then hi else idx

/-- C source `blur_2D_Bspline_vertical` (filmicrgb.c lines 682-742): convolve the
5-tap filter over lines with tap spacing `mult`, clamping sample indices to
`[bound_left, bound_right] = [0, width-1]`.  (The fast-track branch of the C
source skips the clamp exactly where it is the identity.) -/
def blur_2D_Bspline_vertical (inp : Img) (w : ℕ) (mult : ℕ) : Img :=
  fun i j c =>
    ∑ jj ∈ Finset.range 5,
      bspline_filter jj *
        inp i ((clamp_index ((mult : ℤ) * ((jj : ℤ) - 2) + (j : ℤ)) 0 ((w : ℤ) - 1)).toNat) c

/-- C source `blur_2D_Bspline_horizontal` (filmicrgb.c lines 748-809): convolve the
5-tap filter over columns with tap spacing `mult`, clamping sample indices to
`[bound_top, bound_bot] = [0, height-1]`. -/
def blur_2D_Bspline_horizontal (inp : Img) (h : ℕ) (mult : ℕ) : Img :=
  fun i j c =>
    ∑ ii ∈ Finset.range 5,
      bspline_filter ii *
        inp ((clamp_index ((mult : ℤ) * ((ii : ℤ) - 2) + (i : ℤ)) 0 ((h : ℤ) - 1)).toNat) j c

/-- The high-frequency buffer of `wavelets_detail_level_*`:
`HF = detail - LF`. -/
def detail_HF (detail LF : Img) : Img := fun i j c => detail i j c - LF i j c

/-- The achromatic texture of `wavelets_detail_level_RGB`
(filmicrgb.c line 973): max-magnitude HF channel. -/
def texture_RGB (HF : Img) : Mask :=
  fun i j => fmaxabsf (fmaxabsf (HF i j 0) (HF i j 1)) (HF i j 2)

/-- The achromatic texture of `wavelets_detail_level_ratios`
(filmicrgb.c line 993): min-magnitude HF channel. -/
def texture_ratios (HF : Img) : Mask :=
  fun i j => fminabsf (fminabsf (HF i j 0) (HF i j 1)) (HF i j 2)

/-- C source `init_reconstruct` (filmicrgb.c lines 941-955):
`reconstructed = in * (1 - mask)`. -/
def init_reconstruct (inp : Img) (mask : Mask) : Img :=
  fun i j c => inp i j c * (1 - mask i j)

/-- C source `wavelets_reconstruct_RGB` (filmicrgb.c lines 816-866): accumulate into
`reconstructed` the per-pixel increment
`alpha * (delta*(grey_HF + color_details) + (grey_residual + color_residual)/scales)`. -/
def wavelets_reconstruct_RGB (HF LF : Img) (texture mask : Mask) (recon : Img)
    (gamma gamma_comp beta beta_comp delta : ℝ) (scales : ℕ) : Img :=
  fun i j c =>
    let alpha := mask i j
    let grey_texture := gamma * texture i j
    let grey_details := fmaxabsf (fmaxabsf (HF i j 0) (HF i j 1)) (HF i j 2)
    let grey_HF := beta_comp * (gamma_comp * grey_details + grey_texture)
    let grey_residual := beta_comp * min (min (LF i j 0) (LF i j 1)) (LF i j 2)
    let color_residual := LF i j c * beta
    let color_details :=
      (HF i j c * gamma_comp + min |HF i j c / grey_details| 1 * grey_texture) * beta
    recon i j c +
      alpha * (delta * (grey_HF + color_details) +
        (grey_residual + color_residual) / (scales : ℝ))

/-- C source `wavelets_reconstruct_ratios` (filmicrgb.c lines 873-935): the ratio
variant uses the max of the LF channels as grey residual and subtracts half
of the texture transfer in the colour details. -/
def wavelets_reconstruct_ratios (HF LF : Img) (texture mask : Mask) (recon : Img)
    (gamma gamma_comp beta beta_comp delta : ℝ) (scales : ℕ) : Img :=
  fun i j c =>
    let alpha := mask i j
    let grey_texture := gamma * texture i j
    let grey_details := fmaxabsf (fmaxabsf (HF i j 0) (HF i j 1)) (HF i j 2)
    let grey_HF := beta_comp * (gamma_comp * grey_details + grey_texture)
    let grey_residual := beta_comp * max (max (LF i j 0) (LF i j 1)) (LF i j 2)
    let color_residual := LF i j c * beta
    let color_details :=
      (HF i j c * gamma_comp - 0.5 * min |HF i j c / grey_details| 1 * grey_texture) * beta
    recon i j c +
      alpha * (delta * (grey_HF + color_details) +
        (grey_residual + color_residual) / (scales : ℝ))

/-- One iteration of the à-trous scale loop of `reconstruct_highlights`
(filmicrgb.c lines 1072-1122).  The state is the pair
(detail input of the next scale = LF of this scale, reconstructed buffer);
the double-buffering of the two LF slots in the C source is allocation
management and is functionally this state threading. -/
def rh_scale_step (variant : ReconstructVariant) (mask : Mask) (w h : ℕ)
    (gamma gamma_comp beta beta_comp delta : ℝ) (scales : ℕ) (s : ℕ)
    (st : Img × Img) : Img × Img :=
  let detail := st.1
  let recon := st.2
  let mult := 2 ^ s
  let LF := blur_2D_Bspline_horizontal (blur_2D_Bspline_vertical detail w mult) h mult
  let HF0 := detail_HF detail LF
  let texture :=
    match variant with
    | .rgb => texture_RGB HF0
    | .ratios => texture_ratios HF0
  let HF := blur_2D_Bspline_horizontal (blur_2D_Bspline_vertical HF0 w mult) h mult
  let recon2 :=
    match variant with
    | .rgb =>
        wavelets_reconstruct_RGB HF LF texture mask recon gamma gamma_comp beta beta_comp
          delta scales
    | .ratios =>
        wavelets_reconstruct_ratios HF LF texture mask recon gamma gamma_comp beta beta_comp
          delta scales
  (LF, recon2)

/-- The reconstruction computed by `reconstruct_highlights` once all five
scratch buffers are available: `init_reconstruct` followed by the scale
loop. -/
def reconstruct_highlights_core (variant : ReconstructVariant) (inp : Img) (mask : Mask)
    (w h : ℕ) (gamma gamma_comp beta beta_comp delta : ℝ) (scales : ℕ) : Img :=
  ((List.range scales).foldl
    (fun st s => rh_scale_step variant mask w h gamma gamma_comp beta beta_comp delta
      scales s st)
    (inp, init_reconstruct inp mask)).2

/-- The five scratch buffers of `reconstruct_highlights`
(filmicrgb.c lines 1032-1038). -/
inductive BufName where
  | LF_even
  | LF_odd
  | HF_RGB
  | HF_grey
  | temp
deriving DecidableEq

/-- Allocation outcomes for the five scratch buffers of one
`reconstruct_highlights` call (`dt_alloc_sse_ps` may return NULL). -/
structure RHAlloc where
  lf_even : Bool
  lf_odd : Bool
  hf_rgb : Bool
  hf_grey : Bool
  tmp : Bool

/-- All five allocations succeeded
(`!(!LF_even || !LF_odd || !HF_RGB || !HF_grey || !temp)`). -/
def rh_success (a : RHAlloc) : Bool := a.lf_even && a.lf_odd && a.hf_rgb && a.hf_grey && a.tmp

/-- The buffers successfully allocated by a `reconstruct_highlights` call,
in allocation order (filmicrgb.c lines 1032-1038). -/
def rh_allocated (a : RHAlloc) : List BufName :=
  (if a.lf_even then [BufName.LF_even] else []) ++
  (if a.lf_odd then [BufName.LF_odd] else []) ++
  (if a.hf_rgb then [BufName.HF_RGB] else []) ++
  (if a.hf_grey then [BufName.HF_grey] else []) ++
  (if a.tmp then [BufName.temp] else [])

/-- The buffers released at the `error:` label (filmicrgb.c lines 1124-1129),
in release order; every exit path of `reconstruct_highlights` runs it, and
each `dt_free_align` is guarded by a NULL check. -/
def rh_freed (a : RHAlloc) : List BufName :=
  (if a.tmp then [BufName.temp] else []) ++
  (if a.lf_even then [BufName.LF_even] else []) ++
  (if a.lf_odd then [BufName.LF_odd] else []) ++
  (if a.hf_rgb then [BufName.HF_RGB] else []) ++
  (if a.hf_grey then [BufName.HF_grey] else [])

/-- C source `reconstruct_highlights` (filmicrgb.c lines 1019-1131): on any allocation
failure it logs, skips every reconstruction step (the `reconstructed` buffer
keeps its previous contents `recon_init`) and returns FALSE; otherwise it
runs `init_reconstruct` and the scale loop.  The wavelet scale count
(`get_scales(roi_in, piece)`, clamped to `[1, 12]`) is threaded as the
parameter `scales`; the structure/grey/bloom weights are taken from the
committed data exactly as in lines 1051-1059. -/
def reconstruct_highlights (a : RHAlloc) (variant : ReconstructVariant) (inp : Img)
    (mask : Mask) (recon_init : Img) (w h : ℕ) (data : FilmicData) (scales : ℕ) :
    Bool × Img :=
  if rh_success a then
    (true,
      reconstruct_highlights_core variant inp mask w h
        data.reconstruct_structure_vs_texture (1 - data.reconstruct_structure_vs_texture)
        data.reconstruct_grey_vs_color (1 - data.reconstruct_grey_vs_color)
        data.reconstruct_bloom_vs_details scales)
  else (false, recon_init)

/-- Invocation flags of one `process` call (channel count of the piece, GUI
attachment, full-pipe and fast-pipe type bits, mask-display toggle). -/
structure ProcCfg where
  colors : ℕ
  gui_attached : Bool
  pipe_full : Bool
  show_mask : Bool
  run_fast : Bool

/-- Allocation outcomes of the buffers acquired by `process` and by its
nested `reconstruct_highlights` calls (`rh n` is the allocation outcome of
the n-th `reconstruct_highlights` call). -/
structure AllocEnv where
  mask_ok : Bool
  reconstructed_ok : Bool
  norms_ok : Bool
  ratios_ok : Bool
  rh : ℕ → RHAlloc

/-- One iteration of the high-quality reconstruction loop
(filmicrgb.c lines 1479-1484): split the current reconstruction into
Euclidean norms and ratios, run a ratio-variant reconstruction pass on the
ratios (on failure the reconstructed buffer is left untouched), and multiply
the result back by the stored norms. -/
def hq_iter (data : FilmicData) (lum : RGB → ℝ) (mask : Mask) (w h : ℕ) (scales : ℕ)
    (a : RHAlloc) (st : Bool × Img) : Bool × Img :=
  let recon := st.2
  let norms := compute_ratios_norms lum .euclidean_norm recon
  let ratios := compute_ratios lum .euclidean_norm recon
  let r := reconstruct_highlights a .ratios ratios mask recon w h data scales
  (st.1 && r.1, restore_ratios r.2 norms)

/-- C source `process` (filmicrgb.c lines 1411-1517).  Modelling notes: the input,
previous output and freshly allocated (uninitialised) reconstruction buffer
contents are `inp`, `out_init` and `recon_init`; the early return on a wrong
channel count leaves the output buffer untouched, i.e. returns `out_init`;
the working-profile luminance and the noise generator are the opaque
parameters `lum` and `noise`; the alpha channel (copied by
`dt_iop_alpha_copy` only under the mask-display pipe flag) is outside the
three-channel model. -/
def process (data : FilmicData) (cfg : ProcCfg) (alloc : AllocEnv) (lum : RGB → ℝ)
    (noise : ℕ → ℕ → Fin 3 → ℝ) (w h : ℕ) (scales : ℕ)
    (inp out_init recon_init : Img) : Img :=
  if cfg.colors ≠ 4 then out_init
  else
    let normalize := data.reconstruct_feather / data.reconstruct_threshold
    let mask := clip_mask normalize data.reconstruct_feather inp
    let recover := mask_clipped_flag normalize data.reconstruct_feather inp w h
    if cfg.gui_attached && cfg.pipe_full && alloc.mask_ok && cfg.show_mask then
      display_mask mask
    else
      let inUse :=
        if !cfg.run_fast && recover && alloc.mask_ok && alloc.reconstructed_ok then
          let inpainted := inpaint_noise inp mask noise
          let r1 := reconstruct_highlights (alloc.rh 0) .rgb inpainted mask recon_init
            w h data scales
          let r2 :=
            if 0 < data.high_quality_reconstruction ∧ r1.1 = true then
              if alloc.norms_ok && alloc.ratios_ok then
                (List.range data.high_quality_reconstruction).foldl
                  (fun st i => hq_iter data lum mask w h scales (alloc.rh (i + 1)) st)
                  (true, r1.2)
              else (true, r1.2)
            else (true, r1.2)
          if r1.1 && r2.1 then r2.2 else inp
        else inp
      tone_map data lum inUse

/-- The all-zero image. -/
def zero_img : Img := fun _ _ _ => 0

/-- The all-ones image. -/
def one_img : Img := fun _ _ _ => 1

/-- The all-zero mask. -/
def zero_mask : Mask := fun _ _ => 0

/-- A spline with all coefficients zero (concrete test value). -/
def dummy_spline : Spline :=
  ⟨fun _ => 0, fun _ => 0, fun _ => 0, fun _ => 0, fun _ => 0, 0, 0, fun _ => 0, fun _ => 0⟩

/-- Concrete committed data with reconstruction threshold 1 and feather 8
(so a black pixel has sigmoid argument 8, above the counting cutoff 4). -/
def data_feather8 : FilmicData :=
  ⟨0, 0, 0, 1, 8, 0, 0, 0, 0, 0, 1, 0, 0, 0, 0, .none, .v1, 0, dummy_spline, 0⟩

/-- Concrete committed data with reconstruction threshold 1 and feather 2
(so a black pixel has sigmoid argument 2, below the counting cutoff 4). -/
def data_feather2 : FilmicData :=
  ⟨0, 0, 0, 1, 2, 0, 0, 0, 0, 0, 1, 0, 0, 0, 0, .none, .v1, 0, dummy_spline, 0⟩

/-- Allocation environment in which every allocation succeeds. -/
def alloc_all_ok : AllocEnv :=
  ⟨true, true, true, true, fun _ => ⟨true, true, true, true, true⟩⟩

/-- Allocation environment in which the five scratch buffers of every
`reconstruct_highlights` call fail to allocate. -/
def alloc_rh_fail : AllocEnv :=
  ⟨true, true, true, true, fun _ => ⟨false, false, false, false, false⟩⟩

/-- C3.  `mask_clipped_pixels` writes the weight
`1/(1 + 2^(feather - pix_max*(feather/threshold)))` for every pixel (with
`normalize = feather/threshold` as computed by `process`), returns true
exactly when strictly more than 9 pixels have sigmoid argument below 4, and
when it returns false `process` skips reconstruction and tone-maps the
unmodified input buffer. -/
theorem C3_clip_mask_count_and_skip :
    (∀ (feather threshold : ℝ) (inp : Img) (i j : ℕ),
      clip_mask (feather / threshold) feather inp i j =
        1 / (1 + (2 : ℝ) ^ (feather - pix_max (inp i j) * (feather / threshold)))) ∧
    (∀ (normalize feathering : ℝ) (inp : Img) (w h : ℕ),
      mask_clipped_flag normalize feathering inp w h = true ↔
        9 < clipped_count normalize feathering inp w h) ∧
    (∀ (data : FilmicData) (cfg : ProcCfg) (alloc : AllocEnv) (lum : RGB → ℝ)
        (noise : ℕ → ℕ → Fin 3 → ℝ) (w h scales : ℕ) (inp out_init recon_init : Img),
      cfg.colors = 4 →
      (cfg.gui_attached && cfg.pipe_full && alloc.mask_ok && cfg.show_mask) = false →
      mask_clipped_flag (data.reconstruct_feather / data.reconstruct_threshold)
        data.reconstruct_feather inp w h = false →
      process data cfg alloc lum noise w h scales inp out_init recon_init =
        tone_map data lum inp) := by
  refine ⟨?_, ?_, ?_⟩
  · intro feather threshold inp i j
    unfold clip_mask mask_argument
    congr 2
    ring_nf
  · intro normalize feathering inp w h
    unfold mask_clipped_flag
    exact decide_eq_true_iff
  · intro data cfg alloc lum noise w h scales inp out_init recon_init hcolors hdisp hflag
    simp [process, hcolors, hdisp, hflag]

/-- Witness for C3: a 1-by-1 black image with threshold 1 and feather 8 has
sigmoid argument 8 at its only pixel, so no pixel is counted and `process`
reduces to pure tone mapping of the input. -/
theorem C3_witness :
    mask_clipped_flag (data_feather8.reconstruct_feather /
        data_feather8.reconstruct_threshold)
      data_feather8.reconstruct_feather zero_img 1 1 = false ∧
    process data_feather8 ⟨4, false, false, false, false⟩ alloc_all_ok (fun _ => 0)
        (fun _ _ _ => 0) 1 1 1 zero_img one_img zero_img =
      tone_map data_feather8 (fun _ => 0) zero_img := by
  have hcount : clipped_count (data_feather8.reconstruct_feather /
      data_feather8.reconstruct_threshold) data_feather8.reconstruct_feather
      zero_img 1 1 = 0 := by
    unfold clipped_count
    rw [Finset.card_eq_zero, Finset.filter_eq_empty_iff]
    intro p _hp
    unfold mask_argument pix_max zero_img sqf data_feather8
    norm_num
  have hflag : mask_clipped_flag (data_feather8.reconstruct_feather /
      data_feather8.reconstruct_threshold) data_feather8.reconstruct_feather
      zero_img 1 1 = false := by
    unfold mask_clipped_flag
    rw [decide_eq_false_iff_not, hcount]
    norm_num
  exact ⟨hflag,
    C3_clip_mask_count_and_skip.2.2 data_feather8 ⟨4, false, false, false, false⟩
      alloc_all_ok (fun _ => 0) (fun _ _ _ => 0) 1 1 1 zero_img one_img zero_img rfl rfl hflag⟩

/-- C4.  If any of the five scratch allocations of `reconstruct_highlights`
fails, the call performs no reconstruction step (the reconstructed buffer
keeps its previous contents) and returns failure; every buffer that was
successfully allocated is released on exit; and `process` then tone-maps the
original un-reconstructed input buffer. -/
theorem C4_reconstruct_alloc_failure :
    (∀ (a : RHAlloc) (variant : ReconstructVariant) (inp : Img) (mask : Mask)
        (recon_init : Img) (w h : ℕ) (data : FilmicData) (scales : ℕ),
      rh_success a = false →
      reconstruct_highlights a variant inp mask recon_init w h data scales =
        (false, recon_init)) ∧
    (∀ (a : RHAlloc) (b : BufName), b ∈ rh_freed a ↔ b ∈ rh_allocated a) ∧
    (∀ (data : FilmicData) (cfg : ProcCfg) (alloc : AllocEnv) (lum : RGB → ℝ)
        (noise : ℕ → ℕ → Fin 3 → ℝ) (w h scales : ℕ) (inp out_init recon_init : Img),
      cfg.colors = 4 →
      (cfg.gui_attached && cfg.pipe_full && alloc.mask_ok && cfg.show_mask) = false →
      cfg.run_fast = false →
      alloc.mask_ok = true →
      alloc.reconstructed_ok = true →
      rh_success (alloc.rh 0) = false →
      process data cfg alloc lum noise w h scales inp out_init recon_init =
        tone_map data lum inp) := by
  refine ⟨?_, ?_, ?_⟩
  · intro a variant inp mask recon_init w h data scales hfail
    unfold reconstruct_highlights
    rw [hfail]
    simp
  · intro a b
    rcases a with ⟨e, o, r, g, t⟩
    cases e <;> cases o <;> cases r <;> cases g <;> cases t <;> cases b <;> decide
  · intro data cfg alloc lum noise w h scales inp out_init recon_init hcolors hdisp hfast
      hmask hrec hfail
    unfold process
    rw [if_neg (by simp [hcolors])]
    rw [if_neg (by simp [hdisp])]
    by_cases hrecover : mask_clipped_flag
        (data.reconstruct_feather / data.reconstruct_threshold)
        data.reconstruct_feather inp w h = true
    · simp only [hrecover, hfast, hmask, hrec, Bool.not_false, Bool.true_and,
        Bool.and_true, Bool.and_self, if_true, reconstruct_highlights, hfail,
        Bool.false_eq_true, if_false, false_and, and_false, Bool.false_and]
    · rw [Bool.not_eq_true] at hrecover
      simp [hrecover]

/-- Witness for C4: a 1-by-10 black image with threshold 1 and feather 2 has
all ten pixels counted as clipped (argument 2 at each pixel), reconstruction
is attempted, every scratch allocation fails, and the original input is
tone-mapped. -/
theorem C4_witness :
    rh_success (alloc_rh_fail.rh 0) = false ∧
    reconstruct_highlights (alloc_rh_fail.rh 0) .rgb zero_img zero_mask one_img 1 10
      data_feather2 1 = (false, one_img) ∧
    (BufName.temp ∈ rh_freed (alloc_rh_fail.rh 0) ↔
      BufName.temp ∈ rh_allocated (alloc_rh_fail.rh 0)) ∧
    process data_feather2 ⟨4, false, false, false, false⟩ alloc_rh_fail (fun _ => 0)
        (fun _ _ _ => 0) 1 10 1 zero_img one_img zero_img =
      tone_map data_feather2 (fun _ => 0) zero_img := by
  refine ⟨rfl, ?_, ?_, ?_⟩
  · exact C4_reconstruct_alloc_failure.1 (alloc_rh_fail.rh 0) .rgb zero_img zero_mask
      one_img 1 10 data_feather2 1 rfl
  · exact C4_reconstruct_alloc_failure.2.1 (alloc_rh_fail.rh 0) BufName.temp
  · exact C4_reconstruct_alloc_failure.2.2 data_feather2 ⟨4, false, false, false, false⟩
      alloc_rh_fail (fun _ => 0) (fun _ _ _ => 0) 1 10 1 zero_img one_img zero_img
      rfl rfl rfl rfl rfl rfl

lemma rh_scale_step_preserves_recon (variant : ReconstructVariant) (mask : Mask)
    (hm : ∀ i j, mask i j = 0) (w h : ℕ) (gamma gamma_comp beta beta_comp delta : ℝ)
    (scales s : ℕ) (st : Img × Img) :
    (rh_scale_step variant mask w h gamma gamma_comp beta beta_comp delta scales s st).2 =
      st.2 := by
  cases variant <;>
    · funext i j c
      simp only [rh_scale_step, wavelets_reconstruct_RGB, wavelets_reconstruct_ratios, hm,
        zero_mul, add_zero]

lemma rh_fold_preserves_recon (variant : ReconstructVariant) (mask : Mask)
    (hm : ∀ i j, mask i j = 0) (w h : ℕ) (gamma gamma_comp beta beta_comp delta : ℝ)
    (scales : ℕ) :
    ∀ (l : List ℕ) (st : Img × Img),
      ((l.foldl
        (fun st s => rh_scale_step variant mask w h gamma gamma_comp beta beta_comp delta
          scales s st) st).2 = st.2) := by
  intro l
  induction l with
  | nil => intro st; rfl
  | cons a l ih =>
      intro st
      rw [List.foldl_cons, ih]
      exact rh_scale_step_preserves_recon variant mask hm w h gamma gamma_comp beta
        beta_comp delta scales a st

/-- C6.  With an everywhere-zero mask, `init_reconstruct` writes
`in * (1 - 0) = in`, every scale step leaves the reconstructed buffer
untouched (the accumulation increment is multiplied by `alpha = 0`), and the
whole reconstruction returns a buffer numerically identical to its input. -/
theorem C6_zero_mask_reconstruction_identity :
    ∀ (variant : ReconstructVariant) (inp : Img) (mask : Mask),
      (∀ i j, mask i j = 0) →
      ∀ (w h : ℕ) (gamma gamma_comp beta beta_comp delta : ℝ) (scales : ℕ),
        init_reconstruct inp mask = inp ∧
        (∀ (s : ℕ) (st : Img × Img),
          (rh_scale_step variant mask w h gamma gamma_comp beta beta_comp delta scales s
            st).2 = st.2) ∧
        reconstruct_highlights_core variant inp mask w h gamma gamma_comp beta beta_comp
          delta scales = inp := by
  intro variant inp mask hm w h gamma gamma_comp beta beta_comp delta scales
  have hinit : init_reconstruct inp mask = inp := by
    funext i j c
    simp [init_reconstruct, hm]
  refine ⟨hinit, ?_, ?_⟩
  · intro s st
    exact rh_scale_step_preserves_recon variant mask hm w h gamma gamma_comp beta
      beta_comp delta scales s st
  · unfold reconstruct_highlights_core
    rw [rh_fold_preserves_recon variant mask hm w h gamma gamma_comp beta beta_comp delta
      scales (List.range scales) (inp, init_reconstruct inp mask)]
    exact hinit

/-- Witness for C6: the all-zero mask on an all-ones 1-by-1 image, one scale,
RGB variant. -/
theorem C6_witness :
    reconstruct_highlights_core .rgb one_img zero_mask 1 1 0 1 0 1 1 1 = one_img := by
  exact (C6_zero_mask_reconstruction_identity .rgb one_img zero_mask (fun _ _ => rfl)
    1 1 0 1 0 1 1 1).2.2

/-- C8 counterexample.  With a wrong channel count (`colors = 3`), `process`
returns without writing the output buffer, so the output keeps its previous
contents (here 0) and does not carry the input content (here 1): the claimed
no-op pass-through of the input does not happen. -/
theorem C8_counterexample :
    process data_feather8 ⟨3, false, false, false, false⟩ alloc_all_ok (fun _ => 0)
        (fun _ _ _ => 0) 1 1 1 one_img zero_img zero_img 0 0 0 ≠
      one_img 0 0 0 := by
  have h : process data_feather8 ⟨3, false, false, false, false⟩ alloc_all_ok (fun _ => 0)
      (fun _ _ _ => 0) 1 1 1 one_img zero_img zero_img = zero_img := by
    simp [process]
  rw [h]
  unfold zero_img one_img
  norm_num

/-- C8 amended.  With a wrong channel count, `process` emits its diagnostic
and returns immediately: no tone mapping and no reconstruction is performed
and the output buffer is left untouched (it keeps its previous contents
rather than receiving a copy of the input). -/
theorem C8_wrong_channel_count_no_write :
    ∀ (data : FilmicData) (cfg : ProcCfg) (alloc : AllocEnv) (lum : RGB → ℝ)
      (noise : ℕ → ℕ → Fin 3 → ℝ) (w h scales : ℕ) (inp out_init recon_init : Img),
      cfg.colors ≠ 4 →
      process data cfg alloc lum noise w h scales inp out_init recon_init = out_init := by
  intro data cfg alloc lum noise w h scales inp out_init recon_init hcolors
  unfold process
  rw [if_pos hcolors]

/-- Witness for C8 amended, at channel count 3. -/
theorem C8_witness :
    process data_feather8 ⟨3, false, false, false, false⟩ alloc_all_ok (fun _ => 0)
      (fun _ _ _ => 0) 1 1 1 one_img zero_img zero_img = zero_img := by
  exact C8_wrong_channel_count_no_write data_feather8 ⟨3, false, false, false, false⟩
    alloc_all_ok (fun _ => 0) (fun _ _ _ => 0) 1 1 1 one_img zero_img zero_img
    (by norm_num)

/-- The user parameters `dt_iop_filmicrgb_params_t` (filmicrgb.c lines
146-174). -/
structure FilmicParams where
  grey_point_source : ℝ
  black_point_source : ℝ
  white_point_source : ℝ
  reconstruct_threshold : ℝ
  reconstruct_feather : ℝ
  reconstruct_bloom_vs_details : ℝ
  reconstruct_grey_vs_color : ℝ
  reconstruct_structure_vs_texture : ℝ
  security_factor : ℝ
  grey_point_target : ℝ
  black_point_target : ℝ
  white_point_target : ℝ
  output_power : ℝ
  latitude : ℝ
  contrast : ℝ
  saturation : ℝ
  balance : ℝ
  noise_level : ℝ
  preserve_color : NormMethod
  version : ColorScience
  auto_hardness : Bool
  custom_grey : Bool
  high_quality_reconstruction : ℕ
  noise_distribution : ℕ
  shadows : CurveType
  highlights : CurveType

/-- C source `grey_display` of `dt_iop_filmic_rgb_compute_spline`
(filmicrgb.c lines 1765-1776). -/
def cs_grey_display (p : FilmicParams) : ℝ :=
  if p.custom_grey then
    (CLAMP p.grey_point_target p.black_point_target p.white_point_target / 100) ^
      (1 / p.output_power)
  else (0.1845 : ℝ) ^ (1 / p.output_power)

/-- C source `dynamic_range = white_source - black_source` (filmicrgb.c line 1780). -/
def cs_dynamic_range (p : FilmicParams) : ℝ := p.white_point_source - p.black_point_source

/-- C source `grey_log = fabsf(black_point_source) / dynamic_range`
(filmicrgb.c line 1784). -/
def cs_grey_log (p : FilmicParams) : ℝ := |p.black_point_source| / cs_dynamic_range p

/-- C source `black_display` (filmicrgb.c line 1788). -/
def cs_black_display (p : FilmicParams) : ℝ :=
  CLAMP p.black_point_target 0 p.grey_point_target / 100

/-- C source `white_display` (filmicrgb.c line 1789). -/
def cs_white_display (p : FilmicParams) : ℝ :=
  CLAMP p.white_point_target p.grey_point_target 100 / 100

/-- C source `latitude` in log units (filmicrgb.c line 1791). -/
def cs_latitude (p : FilmicParams) : ℝ := CLAMP p.latitude 0 100 / 100 * cs_dynamic_range p

/-- C source `balance` (filmicrgb.c line 1792). -/
def cs_balance (p : FilmicParams) : ℝ := CLAMP p.balance (-50) 50 / 100

/-- C source `contrast = CLAMP(p->contrast, 0.1f, 2.0f)` (filmicrgb.c line 1793). -/
def cs_contrast (p : FilmicParams) : ℝ := CLAMP p.contrast 0.1 2

/-- C source `toe_log` before the balance shift (filmicrgb.c line 1797). -/
def cs_toe_log_pre (p : FilmicParams) : ℝ :=
  cs_grey_log p -
    cs_latitude p / cs_dynamic_range p * |p.black_point_source / cs_dynamic_range p|

/-- C source `shoulder_log` before the balance shift (filmicrgb.c line 1798). -/
def cs_shoulder_log_pre (p : FilmicParams) : ℝ :=
  cs_grey_log p +
    cs_latitude p / cs_dynamic_range p * |p.white_point_source / cs_dynamic_range p|

/-- C source `linear_intercept = grey_display - contrast * grey_log`
(filmicrgb.c line 1801). -/
def cs_linear_intercept (p : FilmicParams) : ℝ :=
  cs_grey_display p - cs_contrast p * cs_grey_log p

/-- C source `toe_display` before the balance shift (filmicrgb.c line 1804). -/
def cs_toe_display_pre (p : FilmicParams) : ℝ :=
  cs_toe_log_pre p * cs_contrast p + cs_linear_intercept p

/-- C source `shoulder_display` before the balance shift (filmicrgb.c line 1805). -/
def cs_shoulder_display_pre (p : FilmicParams) : ℝ :=
  cs_shoulder_log_pre p * cs_contrast p + cs_linear_intercept p

/-- C source `norm = sqrtf(contrast * contrast + 1.0f)` (filmicrgb.c line 1808). -/
def cs_slope_norm (p : FilmicParams) : ℝ :=
  Real.sqrt (cs_contrast p * cs_contrast p + 1)

/-- C source `coeff = -((2.0f * latitude) / dynamic_range) * balance`
(filmicrgb.c line 1811). -/
def cs_coeff (p : FilmicParams) : ℝ :=
  -(2 * cs_latitude p / cs_dynamic_range p) * cs_balance p

/-- C source `toe_display` after the balance shift (filmicrgb.c line 1813). -/
def cs_toe_display (p : FilmicParams) : ℝ :=
  cs_toe_display_pre p + cs_coeff p * cs_contrast p / cs_slope_norm p

/-- C source `shoulder_display` after the balance shift (filmicrgb.c line 1814). -/
def cs_shoulder_display (p : FilmicParams) : ℝ :=
  cs_shoulder_display_pre p + cs_coeff p * cs_contrast p / cs_slope_norm p

/-- C source `toe_log` after the balance shift (filmicrgb.c line 1815).  This is
`spline->x[1] = latitude_min`. -/
def cs_toe_log (p : FilmicParams) : ℝ := cs_toe_log_pre p + cs_coeff p / cs_slope_norm p

/-- C source `shoulder_log` after the balance shift (filmicrgb.c line 1816).  This is
`spline->x[3] = latitude_max`. -/
def cs_shoulder_log (p : FilmicParams) : ℝ :=
  cs_shoulder_log_pre p + cs_coeff p / cs_slope_norm p

/-- Modelled from the spec: `gauss_solve` (iop/gaussian_elimination.h, not
under src/) solves each boundary-condition system by direct elimination.
This is the closed-form solution of the third-order toe system of
filmicrgb.c lines 1889-1896: a cubic with value `y0` at 0 and value `y1`,
first derivative `c` and second derivative `0` at the toe node `Tl`,
written as the coefficient vector (degree 0 first).  The lemma
`solve_toe_poly3_satisfies_system` checks it against every row of the matrix
the C source builds. -/
def solve_toe_poly3 (Tl y0 y1 c : ℝ) : Fin 5 → ℝ :=
  let d := (y1 - c * Tl - y0) / Tl ^ 3
  ![y1 - c * Tl - d * Tl ^ 3, c + 3 * d * Tl ^ 2, -3 * d * Tl, d, 0]

/-- Modelled from the spec: closed-form solution of the fourth-order toe
system of filmicrgb.c lines 1870-1878 (additionally first derivative `0`
at 0), solved by `gauss_solve` in the C source. -/
def solve_toe_poly4 (Tl y0 y1 c : ℝ) : Fin 5 → ℝ :=
  let K := y0 - y1 + c * Tl
  let e := (c * Tl - 3 * K) / Tl ^ 4
  let d := (c * Tl - 4 * K) / Tl ^ 3
  ![y1 - c * Tl - d * Tl ^ 3 + e * Tl ^ 4,
    c + 3 * d * Tl ^ 2 - 4 * e * Tl ^ 3,
    -3 * d * Tl + 6 * e * Tl ^ 2,
    d - 4 * e * Tl,
    e]

/-- Modelled from the spec: closed-form solution of the third-order shoulder
system of filmicrgb.c lines 1909-1916: value `y4` at 1 and value `y3`,
first derivative `c` and second derivative `0` at the shoulder node `Sl`. -/
def solve_shoulder_poly3 (Sl y4 y3 c : ℝ) : Fin 5 → ℝ :=
  let d := (y4 - y3 - c * (1 - Sl)) / (1 - Sl) ^ 3
  ![y3 - c * Sl - d * Sl ^ 3, c + 3 * d * Sl ^ 2, -3 * d * Sl, d, 0]

/-- Modelled from the spec: closed-form solution of the fourth-order
shoulder system of filmicrgb.c lines 1927-1935 (additionally first
derivative `0` at 1). -/
def solve_shoulder_poly4 (Sl y4 y3 c : ℝ) : Fin 5 → ℝ :=
  let u := 1 - Sl
  let K := y4 - y3 - c * u
  let e := -(c * u + 3 * K) / u ^ 4
  let d := (c * u + 4 * K) / u ^ 3
  ![y3 - c * Sl - d * Sl ^ 3 + e * Sl ^ 4,
    c + 3 * d * Sl ^ 2 - 4 * e * Sl ^ 3,
    -3 * d * Sl + 6 * e * Sl ^ 2,
    d - 4 * e * Sl,
    e]

/-- Horner evaluation of a degree-4 coefficient vector (degree 0 first). -/
def poly_eval (v : Fin 5 → ℝ) (x : ℝ) : ℝ :=
  v 0 + x * (v 1 + x * (v 2 + x * (v 3 + x * v 4)))

/-- First derivative of a degree-4 coefficient vector. -/
def poly_deriv (v : Fin 5 → ℝ) (x : ℝ) : ℝ :=
  v 1 + 2 * v 2 * x + 3 * v 3 * x ^ 2 + 4 * v 4 * x ^ 3

/-- Second derivative of a degree-4 coefficient vector. -/
def poly_deriv2 (v : Fin 5 → ℝ) (x : ℝ) : ℝ :=
  2 * v 2 + 6 * v 3 * x + 12 * v 4 * x ^ 2

/-- The toe coefficient vector selected by the shadows hardness mode
(filmicrgb.c lines 1867-1903; `DT_FILMIC_CURVE_POLY_4` is checked first). -/
def cs_toe_coeffs (p : FilmicParams) : Fin 5 → ℝ :=
  match p.shadows with
  | .poly4 => solve_toe_poly4 (cs_toe_log p) (cs_black_display p) (cs_toe_display p)
      (cs_contrast p)
  | .poly3 => solve_toe_poly3 (cs_toe_log p) (cs_black_display p) (cs_toe_display p)
      (cs_contrast p)

/-- The shoulder coefficient vector selected by the highlights hardness mode
(filmicrgb.c lines 1906-1942; `DT_FILMIC_CURVE_POLY_3` is checked first). -/
def cs_shoulder_coeffs (p : FilmicParams) : Fin 5 → ℝ :=
  match p.highlights with
  | .poly3 => solve_shoulder_poly3 (cs_shoulder_log p) (cs_white_display p)
      (cs_shoulder_display p) (cs_contrast p)
  | .poly4 => solve_shoulder_poly4 (cs_shoulder_log p) (cs_white_display p)
      (cs_shoulder_display p) (cs_contrast p)

/-- C source `dt_iop_filmic_rgb_compute_spline` (filmicrgb.c lines 1763-1943):
control nodes, latitude bounds, the closed-form linear segment
(`M2[2] = contrast`, `M1[2] = y[1] - contrast * x[1]`) and the two solved
outer segments. -/
def compute_spline (p : FilmicParams) : Spline :=
  let tc := cs_toe_coeffs p
  let sc := cs_shoulder_coeffs p
  { M1 := ![tc 0, sc 0, cs_toe_display p - cs_contrast p * cs_toe_log p]
    M2 := ![tc 1, sc 1, cs_contrast p]
    M3 := ![tc 2, sc 2, 0]
    M4 := ![tc 3, sc 3, 0]
    M5 := ![tc 4, sc 4, 0]
    latitude_min := cs_toe_log p
    latitude_max := cs_shoulder_log p
    x := ![0, cs_toe_log p, cs_grey_log p, cs_shoulder_log p, 1]
    y := ![cs_black_display p, cs_toe_display p, cs_grey_display p, cs_shoulder_display p,
      cs_white_display p] }

/-- C source `grey_source` of `commit_params` (filmicrgb.c lines 1952-1964). -/
def commit_grey_source (p : FilmicParams) : ℝ :=
  if p.custom_grey then p.grey_point_source / 100 else 0.1845

/-- C source `grey_display` of `commit_params` (filmicrgb.c lines 1952-1964); note
that unlike the spline path this one does not clamp the grey target. -/
def commit_grey_display (p : FilmicParams) : ℝ :=
  if p.custom_grey then (p.grey_point_target / 100) ^ (1 / p.output_power)
  else (0.1845 : ℝ) ^ (1 / p.output_power)

/-- C source `grey_log` of `commit_params` (filmicrgb.c line 1972). -/
def commit_grey_log (p : FilmicParams) : ℝ :=
  |p.black_point_source| / (p.white_point_source - p.black_point_source)

/-- The committed contrast (filmicrgb.c lines 1975-1980): raised to
`1.0001 * grey_display / grey_log` whenever `p->contrast` is below
`grey_display / grey_log`, so that
`grey_display - contrast * grey_log <= 0`. -/
def commit_contrast (p : FilmicParams) : ℝ :=
  if p.contrast < commit_grey_display p / commit_grey_log p then
    1.0001 * commit_grey_display p / commit_grey_log p
  else p.contrast

/-- C source `commit_params` (filmicrgb.c lines 1945-2013).  The `white_source` field
of the data struct is not written by `commit_params` and no pipeline
computation reads it; it is 0 in the model.  `powf(x, 2.0f)` for the two
sigmas is the square. -/
def commit_params (p : FilmicParams) : FilmicData :=
  { white_source := 0
    grey_source := commit_grey_source p
    black_source := p.black_point_source
    reconstruct_threshold :=
      (2 : ℝ) ^ (p.white_point_source + p.reconstruct_threshold) * commit_grey_source p
    reconstruct_feather := (2 : ℝ) ^ (12 / p.reconstruct_feather)
    reconstruct_bloom_vs_details := (p.reconstruct_bloom_vs_details / 100 + 1) / 2
    reconstruct_grey_vs_color := (p.reconstruct_grey_vs_color / 100 + 1) / 2
    reconstruct_structure_vs_texture := (p.reconstruct_structure_vs_texture / 100 + 1) / 2
    dynamic_range := p.white_point_source - p.black_point_source
    saturation := 2 * p.saturation / 100 + 1
    output_power := p.output_power
    contrast := commit_contrast p
    sigma_toe := ((compute_spline p).latitude_min / 3) ^ (2 : ℕ)
    sigma_shoulder := ((1 - (compute_spline p).latitude_max) / 3) ^ (2 : ℕ)
    noise_level := p.noise_level
    preserve_color := p.preserve_color
    version := p.version
    high_quality_reconstruction := p.high_quality_reconstruction
    spline := compute_spline p
    noise_distribution := p.noise_distribution }

/-- Shared simp set for reading entries of a 5-vector literal. -/
lemma vec5_entries (a b c d e : ℝ) :
    (![a, b, c, d, e] : Fin 5 → ℝ) 0 = a ∧ (![a, b, c, d, e] : Fin 5 → ℝ) 1 = b ∧
    (![a, b, c, d, e] : Fin 5 → ℝ) 2 = c ∧ (![a, b, c, d, e] : Fin 5 → ℝ) 3 = d ∧
    (![a, b, c, d, e] : Fin 5 → ℝ) 4 = e := by
  refine ⟨rfl, rfl, rfl, rfl, rfl⟩

/-- The spec-modelled cubic toe solution satisfies every row of the linear
system built at filmicrgb.c lines 1889-1894 whenever the toe node is away
from the domain boundary 0. -/
lemma solve_toe_poly3_satisfies_system (Tl y0 y1 c : ℝ) (h : Tl ≠ 0) :
    poly_eval (solve_toe_poly3 Tl y0 y1 c) 0 = y0 ∧
    poly_eval (solve_toe_poly3 Tl y0 y1 c) Tl = y1 ∧
    poly_deriv (solve_toe_poly3 Tl y0 y1 c) Tl = c ∧
    poly_deriv2 (solve_toe_poly3 Tl y0 y1 c) Tl = 0 := by
  unfold solve_toe_poly3 poly_eval poly_deriv poly_deriv2
  simp only [Matrix.cons_val_zero, Matrix.cons_val_one, Matrix.head_cons,
    Matrix.cons_val_two, Matrix.tail_cons, Matrix.cons_val_three, Matrix.cons_val_four]
  refine ⟨?_, by ring, by ring, by ring⟩
  field_simp

/-- The spec-modelled quartic toe solution satisfies every row of the linear
system built at filmicrgb.c lines 1870-1876 whenever the toe node is away
from the domain boundary 0. -/
lemma solve_toe_poly4_satisfies_system (Tl y0 y1 c : ℝ) (h : Tl ≠ 0) :
    poly_eval (solve_toe_poly4 Tl y0 y1 c) 0 = y0 ∧
    poly_deriv (solve_toe_poly4 Tl y0 y1 c) 0 = 0 ∧
    poly_eval (solve_toe_poly4 Tl y0 y1 c) Tl = y1 ∧
    poly_deriv (solve_toe_poly4 Tl y0 y1 c) Tl = c ∧
    poly_deriv2 (solve_toe_poly4 Tl y0 y1 c) Tl = 0 := by
  unfold solve_toe_poly4 poly_eval poly_deriv poly_deriv2
  simp only [Matrix.cons_val_zero, Matrix.cons_val_one, Matrix.head_cons,
    Matrix.cons_val_two, Matrix.tail_cons, Matrix.cons_val_three, Matrix.cons_val_four]
  refine ⟨?_, ?_, by ring, by ring, by ring⟩
  · field_simp
    ring
  · field_simp
    ring

/-- The spec-modelled cubic shoulder solution satisfies every row of the
linear system built at filmicrgb.c lines 1909-1914 whenever the shoulder
node is away from the domain boundary 1. -/
lemma solve_shoulder_poly3_satisfies_system (Sl y4 y3 c : ℝ) (h : Sl ≠ 1) :
    poly_eval (solve_shoulder_poly3 Sl y4 y3 c) 1 = y4 ∧
    poly_eval (solve_shoulder_poly3 Sl y4 y3 c) Sl = y3 ∧
    poly_deriv (solve_shoulder_poly3 Sl y4 y3 c) Sl = c ∧
    poly_deriv2 (solve_shoulder_poly3 Sl y4 y3 c) Sl = 0 := by
  have h1 : (1 : ℝ) - Sl ≠ 0 := sub_ne_zero.mpr (Ne.symm h)
  unfold solve_shoulder_poly3 poly_eval poly_deriv poly_deriv2
  simp only [Matrix.cons_val_zero, Matrix.cons_val_one, Matrix.head_cons,
    Matrix.cons_val_two, Matrix.tail_cons, Matrix.cons_val_three, Matrix.cons_val_four]
  refine ⟨?_, by ring, by ring, by ring⟩
  field_simp
  ring

/-- The spec-modelled quartic shoulder solution satisfies every row of the
linear system built at filmicrgb.c lines 1927-1933 whenever the shoulder
node is away from the domain boundary 1. -/
lemma solve_shoulder_poly4_satisfies_system (Sl y4 y3 c : ℝ) (h : Sl ≠ 1) :
    poly_eval (solve_shoulder_poly4 Sl y4 y3 c) 1 = y4 ∧
    poly_deriv (solve_shoulder_poly4 Sl y4 y3 c) 1 = 0 ∧
    poly_eval (solve_shoulder_poly4 Sl y4 y3 c) Sl = y3 ∧
    poly_deriv (solve_shoulder_poly4 Sl y4 y3 c) Sl = c ∧
    poly_deriv2 (solve_shoulder_poly4 Sl y4 y3 c) Sl = 0 := by
  have h1 : (1 : ℝ) - Sl ≠ 0 := sub_ne_zero.mpr (Ne.symm h)
  unfold solve_shoulder_poly4 poly_eval poly_deriv poly_deriv2
  simp only [Matrix.cons_val_zero, Matrix.cons_val_one, Matrix.head_cons,
    Matrix.cons_val_two, Matrix.tail_cons, Matrix.cons_val_three, Matrix.cons_val_four]
  refine ⟨?_, ?_, by ring, by ring, by ring⟩
  · field_simp
    ring
  · field_simp
    ring

lemma seg_eval_toe (p : FilmicParams) (x : ℝ) :
    seg_eval (compute_spline p) 0 x = poly_eval (cs_toe_coeffs p) x := by
  simp only [seg_eval, compute_spline, poly_eval, Matrix.cons_val_zero]

lemma seg_eval_shoulder (p : FilmicParams) (x : ℝ) :
    seg_eval (compute_spline p) 1 x = poly_eval (cs_shoulder_coeffs p) x := by
  simp only [seg_eval, compute_spline, poly_eval, Matrix.cons_val_one, Matrix.head_cons]

lemma seg_eval_linear (p : FilmicParams) (x : ℝ) :
    seg_eval (compute_spline p) 2 x =
      cs_toe_display p - cs_contrast p * cs_toe_log p + cs_contrast p * x := by
  simp only [seg_eval, compute_spline, Matrix.cons_val_two, Matrix.tail_cons,
    Matrix.head_cons]
  ring

lemma seg_deriv_toe (p : FilmicParams) (x : ℝ) :
    seg_deriv (compute_spline p) 0 x = poly_deriv (cs_toe_coeffs p) x := by
  simp only [seg_deriv, compute_spline, poly_deriv, Matrix.cons_val_zero]

lemma seg_deriv_shoulder (p : FilmicParams) (x : ℝ) :
    seg_deriv (compute_spline p) 1 x = poly_deriv (cs_shoulder_coeffs p) x := by
  simp only [seg_deriv, compute_spline, poly_deriv, Matrix.cons_val_one, Matrix.head_cons]

lemma seg_deriv_linear (p : FilmicParams) (x : ℝ) :
    seg_deriv (compute_spline p) 2 x = cs_contrast p := by
  simp only [seg_deriv, compute_spline, Matrix.cons_val_two, Matrix.tail_cons,
    Matrix.head_cons]
  ring

lemma toe_node_val (p : FilmicParams) :
    poly_eval (cs_toe_coeffs p) (cs_toe_log p) = cs_toe_display p := by
  unfold cs_toe_coeffs
  cases p.shadows
  · unfold solve_toe_poly4 poly_eval
    simp only [Matrix.cons_val_zero, Matrix.cons_val_one, Matrix.head_cons,
      Matrix.cons_val_two, Matrix.tail_cons, Matrix.cons_val_three, Matrix.cons_val_four]
    ring
  · unfold solve_toe_poly3 poly_eval
    simp only [Matrix.cons_val_zero, Matrix.cons_val_one, Matrix.head_cons,
      Matrix.cons_val_two, Matrix.tail_cons, Matrix.cons_val_three, Matrix.cons_val_four]
    ring

lemma toe_node_deriv (p : FilmicParams) :
    poly_deriv (cs_toe_coeffs p) (cs_toe_log p) = cs_contrast p := by
  unfold cs_toe_coeffs
  cases p.shadows
  · unfold solve_toe_poly4 poly_deriv
    simp only [Matrix.cons_val_zero, Matrix.cons_val_one, Matrix.head_cons,
      Matrix.cons_val_two, Matrix.tail_cons, Matrix.cons_val_three, Matrix.cons_val_four]
    ring
  · unfold solve_toe_poly3 poly_deriv
    simp only [Matrix.cons_val_zero, Matrix.cons_val_one, Matrix.head_cons,
      Matrix.cons_val_two, Matrix.tail_cons, Matrix.cons_val_three, Matrix.cons_val_four]
    ring

lemma shoulder_node_val (p : FilmicParams) :
    poly_eval (cs_shoulder_coeffs p) (cs_shoulder_log p) = cs_shoulder_display p := by
  unfold cs_shoulder_coeffs
  cases p.highlights
  · unfold solve_shoulder_poly4 poly_eval
    simp only [Matrix.cons_val_zero, Matrix.cons_val_one, Matrix.head_cons,
      Matrix.cons_val_two, Matrix.tail_cons, Matrix.cons_val_three, Matrix.cons_val_four]
    ring
  · unfold solve_shoulder_poly3 poly_eval
    simp only [Matrix.cons_val_zero, Matrix.cons_val_one, Matrix.head_cons,
      Matrix.cons_val_two, Matrix.tail_cons, Matrix.cons_val_three, Matrix.cons_val_four]
    ring

lemma shoulder_node_deriv (p : FilmicParams) :
    poly_deriv (cs_shoulder_coeffs p) (cs_shoulder_log p) = cs_contrast p := by
  unfold cs_shoulder_coeffs
  cases p.highlights
  · unfold solve_shoulder_poly4 poly_deriv
    simp only [Matrix.cons_val_zero, Matrix.cons_val_one, Matrix.head_cons,
      Matrix.cons_val_two, Matrix.tail_cons, Matrix.cons_val_three, Matrix.cons_val_four]
    ring
  · unfold solve_shoulder_poly3 poly_deriv
    simp only [Matrix.cons_val_zero, Matrix.cons_val_one, Matrix.head_cons,
      Matrix.cons_val_two, Matrix.tail_cons, Matrix.cons_val_three, Matrix.cons_val_four]
    ring

/-- Both display nodes stay on the line of slope `contrast` through the
(shifted) toe node: the balance shift moves the nodes along that line. -/
lemma linear_at_shoulder (p : FilmicParams) :
    cs_toe_display p - cs_contrast p * cs_toe_log p +
      cs_contrast p * cs_shoulder_log p = cs_shoulder_display p := by
  unfold cs_toe_display cs_shoulder_display cs_toe_log cs_shoulder_log cs_toe_display_pre
    cs_shoulder_display_pre
  ring

/-- C2.  For parameters whose control nodes are ordered
`toe_log < grey_log < shoulder_log`, the spline built by
`dt_iop_filmic_rgb_compute_spline` has, in every combination of
cubic/quartic toe and shoulder modes, the same value and the same first
derivative on both sides of `latitude_min` and of `latitude_max` (the outer
polynomial matches the linear segment, whose derivative is the constant
contrast); the equalities are exact in the real model, hence within every
positive tolerance such as 1e-4. -/
theorem C2_spline_node_continuity :
    ∀ p : FilmicParams,
      cs_toe_log p < cs_grey_log p →
      cs_grey_log p < cs_shoulder_log p →
      seg_eval (compute_spline p) 0 (compute_spline p).latitude_min =
          seg_eval (compute_spline p) 2 (compute_spline p).latitude_min ∧
      seg_deriv (compute_spline p) 0 (compute_spline p).latitude_min =
          seg_deriv (compute_spline p) 2 (compute_spline p).latitude_min ∧
      seg_eval (compute_spline p) 1 (compute_spline p).latitude_max =
          seg_eval (compute_spline p) 2 (compute_spline p).latitude_max ∧
      seg_deriv (compute_spline p) 1 (compute_spline p).latitude_max =
          seg_deriv (compute_spline p) 2 (compute_spline p).latitude_max ∧
      (∀ x, seg_deriv (compute_spline p) 2 x = cs_contrast p) := by
  intro p _horder1 _horder2
  have hmin : (compute_spline p).latitude_min = cs_toe_log p := rfl
  have hmax : (compute_spline p).latitude_max = cs_shoulder_log p := rfl
  refine ⟨?_, ?_, ?_, ?_, fun x => seg_deriv_linear p x⟩
  · rw [hmin, seg_eval_toe, seg_eval_linear, toe_node_val]
    ring
  · rw [hmin, seg_deriv_toe, seg_deriv_linear, toe_node_deriv]
  · rw [hmax, seg_eval_shoulder, seg_eval_linear, shoulder_node_val,
      linear_at_shoulder]
  · rw [hmax, seg_deriv_shoulder, seg_deriv_linear, shoulder_node_deriv]

/-- A concrete parameter set for the C2 witness: sources at -4/+4 EV,
latitude 50, balance 0, contrast 1, so the nodes are 0.25 < 0.5 < 0.75. -/
def witness_params : FilmicParams :=
  { grey_point_source := 18.45
    black_point_source := -4
    white_point_source := 4
    reconstruct_threshold := 3
    reconstruct_feather := 3
    reconstruct_bloom_vs_details := 100
    reconstruct_grey_vs_color := 100
    reconstruct_structure_vs_texture := 0
    security_factor := 0
    grey_point_target := 18.45
    black_point_target := 0
    white_point_target := 100
    output_power := 1
    latitude := 50
    contrast := 1
    saturation := 10
    balance := 0
    noise_level := 0.1
    preserve_color := .power_norm
    version := .v2
    auto_hardness := true
    custom_grey := false
    high_quality_reconstruction := 1
    noise_distribution := 2
    shadows := .poly4
    highlights := .poly4 }

lemma witness_params_toe_log : cs_toe_log witness_params = 0.25 := by
  unfold cs_toe_log cs_toe_log_pre cs_coeff cs_balance cs_grey_log cs_latitude
    cs_dynamic_range CLAMP witness_params
  norm_num [abs_of_nonneg]

lemma witness_params_grey_log : cs_grey_log witness_params = 0.5 := by
  unfold cs_grey_log cs_dynamic_range witness_params
  norm_num

lemma witness_params_shoulder_log : cs_shoulder_log witness_params = 0.75 := by
  unfold cs_shoulder_log cs_shoulder_log_pre cs_coeff cs_balance cs_grey_log cs_latitude
    cs_dynamic_range CLAMP witness_params
  norm_num [abs_of_nonneg]

/-- Witness for C2 at `witness_params`, whose nodes are 0.25 < 0.5 < 0.75. -/
theorem C2_witness :
    cs_toe_log witness_params < cs_grey_log witness_params ∧
    cs_grey_log witness_params < cs_shoulder_log witness_params ∧
    seg_eval (compute_spline witness_params) 0 (compute_spline witness_params).latitude_min =
      seg_eval (compute_spline witness_params) 2
        (compute_spline witness_params).latitude_min := by
  have h1 : cs_toe_log witness_params < cs_grey_log witness_params := by
    rw [witness_params_toe_log, witness_params_grey_log]
    norm_num
  have h2 : cs_grey_log witness_params < cs_shoulder_log witness_params := by
    rw [witness_params_grey_log, witness_params_shoulder_log]
    norm_num
  exact ⟨h1, h2, (C2_spline_node_continuity witness_params h1 h2).1⟩

/-- Parameters with the source black point at 0 EV (allowed by
`dynamic_range > 0`): the committed zero-intercept condition fails there. -/
def p_black_zero : FilmicParams :=
  { witness_params with black_point_source := 0, contrast := 1 }

/-- Parameters with a low contrast (0.2), below `grey_display / grey_log`:
the committed contrast is raised but the spline keeps the range-clamped user
contrast. -/
def p_low_contrast : FilmicParams :=
  { witness_params with contrast := 0.2 }

lemma p_black_zero_grey_display : commit_grey_display p_black_zero = 0.1845 := by
  unfold commit_grey_display p_black_zero witness_params
  norm_num

lemma p_low_contrast_grey_display : commit_grey_display p_low_contrast = 0.1845 := by
  unfold commit_grey_display p_low_contrast witness_params
  norm_num

/-- C7 counterexample.  The claim fails on the code in two ways: (a) with the
source black point at 0 the committed data violates
`grey_display - contrast * grey_log <= 0` (grey_log is 0 and grey_display is
positive); (b) the spline linear slope is `CLAMP(p->contrast, 0.1, 2)`, not
the zero-intercept-clamped committed contrast, and the two differ for
contrast 0.2 (slope 0.2 versus committed 0.3690369). -/
theorem C7_counterexample :
    ¬(commit_grey_display p_black_zero -
        (commit_params p_black_zero).contrast * commit_grey_log p_black_zero ≤ 0) ∧
    (commit_params p_low_contrast).spline.M2 2 ≠ (commit_params p_low_contrast).contrast := by
  constructor
  · have hgl : commit_grey_log p_black_zero = 0 := by
      unfold commit_grey_log p_black_zero witness_params
      norm_num
    have hpc : p_black_zero.contrast = 1 := rfl
    have hcontrast : (commit_params p_black_zero).contrast = 1 := by
      show commit_contrast p_black_zero = 1
      unfold commit_contrast
      rw [hgl, p_black_zero_grey_display, hpc]
      norm_num
    rw [hgl, hcontrast, p_black_zero_grey_display]
    norm_num
  · have hgl : commit_grey_log p_low_contrast = 0.5 := by
      unfold commit_grey_log p_low_contrast witness_params
      norm_num
    have hslope : (commit_params p_low_contrast).spline.M2 2 = 0.2 := by
      show (compute_spline p_low_contrast).M2 2 = 0.2
      simp only [compute_spline, Matrix.cons_val_two, Matrix.tail_cons, Matrix.head_cons]
      unfold cs_contrast CLAMP p_low_contrast witness_params
      norm_num
    have hcontrast : (commit_params p_low_contrast).contrast = 1.0001 * 0.1845 / 0.5 := by
      show commit_contrast p_low_contrast = 1.0001 * 0.1845 / 0.5
      unfold commit_contrast
      rw [hgl, p_low_contrast_grey_display]
      rw [if_pos]
      · show (0.2 : ℝ) < 0.1845 / 0.5
        norm_num
    rw [hslope, hcontrast]
    norm_num

/-- C7 amended.  For every parameter set with a nonzero source black point,
positive dynamic range and nonnegative committed grey display value, the
committed contrast satisfies the zero-intercept condition
`grey_display - contrast * grey_log <= 0`; the linear segment of the spline,
however, is built with the range-clamped user contrast
`CLAMP(p->contrast, 0.1, 2)` (which the counterexample shows can differ from
the committed contrast). -/
theorem C7_contrast_clamp_invariant :
    (∀ p : FilmicParams,
      p.black_point_source ≠ 0 →
      p.black_point_source < p.white_point_source →
      0 ≤ commit_grey_display p →
      commit_grey_display p - (commit_params p).contrast * commit_grey_log p ≤ 0) ∧
    (∀ p : FilmicParams, (commit_params p).spline.M2 2 = cs_contrast p) := by
  constructor
  · intro p hb hdr hgd
    have hgl : 0 < commit_grey_log p := by
      unfold commit_grey_log
      exact div_pos (abs_pos.mpr hb) (by linarith)
    show commit_grey_display p - commit_contrast p * commit_grey_log p ≤ 0
    unfold commit_contrast
    by_cases hc : p.contrast < commit_grey_display p / commit_grey_log p
    · rw [if_pos hc]
      rw [div_mul_cancel₀ _ hgl.ne']
      linarith
    · rw [if_neg hc]
      push_neg at hc
      have := (div_le_iff₀ hgl).mp hc
      linarith
  · intro p
    show (compute_spline p).M2 2 = cs_contrast p
    simp only [compute_spline, Matrix.cons_val_two, Matrix.tail_cons, Matrix.head_cons]

/-- Witness for C7 amended, at the low-contrast parameter set. -/
theorem C7_witness :
    commit_grey_display p_low_contrast -
        (commit_params p_low_contrast).contrast * commit_grey_log p_low_contrast ≤ 0 ∧
    (commit_params p_low_contrast).spline.M2 2 = cs_contrast p_low_contrast := by
  constructor
  · apply C7_contrast_clamp_invariant.1 p_low_contrast
    · show p_low_contrast.black_point_source ≠ 0
      unfold p_low_contrast witness_params
      norm_num
    · show p_low_contrast.black_point_source < p_low_contrast.white_point_source
      unfold p_low_contrast witness_params
      norm_num
    · rw [p_low_contrast_grey_display]
      norm_num
  · exact C7_contrast_clamp_invariant.2 p_low_contrast

/-- The default user parameters (the `$DEFAULT:` values of
`dt_iop_filmicrgb_params_t`, filmicrgb.c lines 146-174). -/
def default_params : FilmicParams :=
  { grey_point_source := 18.45
    black_point_source := -8
    white_point_source := 4
    reconstruct_threshold := 3
    reconstruct_feather := 3
    reconstruct_bloom_vs_details := 100
    reconstruct_grey_vs_color := 100
    reconstruct_structure_vs_texture := 0
    security_factor := 0
    grey_point_target := 18.45
    black_point_target := 0
    white_point_target := 100
    output_power := 4
    latitude := 33
    contrast := 1.5
    saturation := 10
    balance := 0
    noise_level := 0.1
    preserve_color := .power_norm
    version := .v2
    auto_hardness := true
    custom_grey := false
    high_quality_reconstruction := 1
    noise_distribution := 2
    shadows := .poly4
    highlights := .poly4 }

/-- A uniformly mid-grey image (18.45 percent grey, no channel near 1). -/
def midgrey_img : Img := fun _ _ _ => 0.1845

lemma default_commit_feather : (commit_params default_params).reconstruct_feather = 16 := by
  show (2 : ℝ) ^ ((12 : ℝ) / default_params.reconstruct_feather) = 16
  have h : (12 : ℝ) / default_params.reconstruct_feather = ((4 : ℕ) : ℝ) := by
    unfold default_params
    norm_num
  rw [h, Real.rpow_natCast]
  norm_num

lemma default_commit_threshold :
    (commit_params default_params).reconstruct_threshold = 23.616 := by
  show (2 : ℝ) ^ (default_params.white_point_source + default_params.reconstruct_threshold) *
      commit_grey_source default_params = 23.616
  have h : default_params.white_point_source + default_params.reconstruct_threshold =
      ((7 : ℕ) : ℝ) := by
    unfold default_params
    norm_num
  have hg : commit_grey_source default_params = 0.1845 := by
    unfold commit_grey_source default_params
    norm_num
  rw [h, Real.rpow_natCast, hg]
  norm_num

lemma midgrey_pix_max_le (i j : ℕ) : pix_max (midgrey_img i j) ≤ 0.5 := by
  unfold pix_max midgrey_img sqf
  have h1 : (0.1845 : ℝ) * 0.1845 + 0.1845 * 0.1845 + 0.1845 * 0.1845 ≤ 0.25 := by
    norm_num
  calc Real.sqrt (0.1845 * 0.1845 + 0.1845 * 0.1845 + 0.1845 * 0.1845) ≤
      Real.sqrt 0.25 := Real.sqrt_le_sqrt h1
    _ = 0.5 := by
      rw [show (0.25 : ℝ) = 0.5 ^ 2 by norm_num]
      exact Real.sqrt_sq (by norm_num)

/-- On the mid-grey image with default committed threshold and feather the
sigmoid argument is at least 15 at every pixel. -/
lemma midgrey_argument_ge (i j : ℕ) :
    15 ≤ mask_argument ((commit_params default_params).reconstruct_feather /
        (commit_params default_params).reconstruct_threshold)
      (commit_params default_params).reconstruct_feather (midgrey_img i j) := by
  unfold mask_argument
  rw [default_commit_feather, default_commit_threshold]
  have hpm0 : 0 ≤ pix_max (midgrey_img i j) := Real.sqrt_nonneg _
  have hpm : pix_max (midgrey_img i j) ≤ 0.5 := midgrey_pix_max_le i j
  have hnn : (0 : ℝ) ≤ 16 / 23.616 := by norm_num
  have hmul : pix_max (midgrey_img i j) * (16 / 23.616) ≤ 0.5 * (16 / 23.616) :=
    mul_le_mul_of_nonneg_right hpm hnn
  nlinarith

/-- C9 counterexample.  The sigmoid weight `1/(1 + 2^argument)` is strictly
positive at every pixel, so on the uniformly mid-grey image with default
committed threshold and feather the mask is not all-zero: the claimed
all-zero weights do not occur. -/
theorem C9_counterexample :
    clip_mask ((commit_params default_params).reconstruct_feather /
        (commit_params default_params).reconstruct_threshold)
      (commit_params default_params).reconstruct_feather midgrey_img 0 0 ≠ 0 := by
  unfold clip_mask
  have h2 : (0 : ℝ) < (2 : ℝ) ^ mask_argument
      ((commit_params default_params).reconstruct_feather /
        (commit_params default_params).reconstruct_threshold)
      (commit_params default_params).reconstruct_feather (midgrey_img 0 0) :=
    Real.rpow_pos_of_pos (by norm_num) _
  have : (0 : ℝ) < 1 / (1 + (2 : ℝ) ^ mask_argument
      ((commit_params default_params).reconstruct_feather /
        (commit_params default_params).reconstruct_threshold)
      (commit_params default_params).reconstruct_feather (midgrey_img 0 0)) := by
    apply div_pos one_pos
    linarith
  exact this.ne'

/-- C9 amended.  On the uniformly mid-grey image with the default committed
reconstruction threshold and feather, every mask weight is strictly positive
but negligibly small (at most `2^-15 = 1/32768`), and `mask_clipped_pixels`
reports that reconstruction is not worth attempting (no pixel reaches the
counting cutoff, so the flag is false). -/
theorem C9_midgrey_mask_negligible_and_skip :
    ∀ (w h i j : ℕ),
      0 < clip_mask ((commit_params default_params).reconstruct_feather /
          (commit_params default_params).reconstruct_threshold)
        (commit_params default_params).reconstruct_feather midgrey_img i j ∧
      clip_mask ((commit_params default_params).reconstruct_feather /
          (commit_params default_params).reconstruct_threshold)
        (commit_params default_params).reconstruct_feather midgrey_img i j ≤ 1 / 32768 ∧
      mask_clipped_flag ((commit_params default_params).reconstruct_feather /
          (commit_params default_params).reconstruct_threshold)
        (commit_params default_params).reconstruct_feather midgrey_img w h = false := by
  intro w h i j
  have harg : ∀ a b : ℕ, 15 ≤ mask_argument
      ((commit_params default_params).reconstruct_feather /
        (commit_params default_params).reconstruct_threshold)
      (commit_params default_params).reconstruct_feather (midgrey_img a b) :=
    midgrey_argument_ge
  have h2pos : ∀ a b : ℕ, (0 : ℝ) < (2 : ℝ) ^ mask_argument
      ((commit_params default_params).reconstruct_feather /
        (commit_params default_params).reconstruct_threshold)
      (commit_params default_params).reconstruct_feather (midgrey_img a b) :=
    fun a b => Real.rpow_pos_of_pos (by norm_num) _
  refine ⟨?_, ?_, ?_⟩
  · unfold clip_mask
    apply div_pos one_pos
    linarith [h2pos i j]
  · unfold clip_mask
    have hlow : (32768 : ℝ) ≤ (2 : ℝ) ^ mask_argument
        ((commit_params default_params).reconstruct_feather /
          (commit_params default_params).reconstruct_threshold)
        (commit_params default_params).reconstruct_feather (midgrey_img i j) := by
      have h15 : ((32768 : ℝ)) = (2 : ℝ) ^ ((15 : ℕ) : ℝ) := by
        rw [Real.rpow_natCast]
        norm_num
      rw [h15]
      exact (Real.rpow_le_rpow_left_iff (by norm_num : (1:ℝ) < 2)).mpr (by exact_mod_cast harg i j)
    rw [div_le_div_iff₀ (by linarith [h2pos i j]) (by norm_num)]
    linarith [h2pos i j]
  · have hcount : clipped_count ((commit_params default_params).reconstruct_feather /
        (commit_params default_params).reconstruct_threshold)
        (commit_params default_params).reconstruct_feather midgrey_img w h = 0 := by
      unfold clipped_count
      rw [Finset.card_eq_zero, Finset.filter_eq_empty_iff]
      intro q _hq
      have := harg q.1 q.2
      intro hlt
      linarith
    unfold mask_clipped_flag
    rw [decide_eq_false_iff_not, hcount]
    omega

end FilmicRGB
